import Mathlib

/-!
Verification development for the JWT verification core of the
enhancer auth-client library: the token verifier
(src/jwt/verifier.ts, class JwtVerifier) and the public-key cache
(src/jwt/public-key-cache.ts, class PublicKeyCache), together with the
structural validator isValidJWTFormat (src/utils/validators.ts).

The embedding is shallow: JavaScript values appearing in a JWT payload
are modelled by an inductive type with the typeof
and Array.isArray tests used by the source; the external jose library
and the HTTP transport are modelled as parameters (a verification
outcome function and a per-attempt response oracle), since they are
dependencies outside this repository; the single-threaded JavaScript
event loop is modelled by an explicit transition system whose atomic
steps are exactly the synchronous code segments between await points
of the source.
-/

namespace AuthClient

/-- A JavaScript value as it can appear in a decoded JWT payload.
A field that is absent from the payload object reads as undefined. -/
inductive JsValue where
  | str (s : String)
  | num (n : Int)
  | boolean (b : Bool)
  | arr (elems : List JsValue)
  | nullv
  | undef
deriving Repr

/-- JS test: typeof v === 'string'. -/
def JsValue.isString : JsValue → Bool
  | .str _ => true
  | _ => false

/-- JS test: typeof v === 'number'. -/
def JsValue.isNumber : JsValue → Bool
  | .num _ => true
  | _ => false

/-- JS test: Array.isArray(v). -/
def JsValue.isArray : JsValue → Bool
  | .arr _ => true
  | _ => false

/-- Value of a JsValue known to be a string (used only under an isString guard). -/
def JsValue.asString : JsValue → String
  | .str s => s
  | _ => ""

/-- Value of a JsValue known to be a number (used only under an isNumber guard). -/
def JsValue.asNumber : JsValue → Int
  | .num n => n
  | _ => 0

/-- Elements of a JsValue known to be an array (used only under an isArray guard). -/
def JsValue.asList : JsValue → List JsValue
  | .arr xs => xs
  | _ => []

/-- JavaScript token.split('.') on the character list of the string:
splitting an empty string yields one empty segment, a separator at
either end yields an empty segment there. -/
def splitOnDot : List Char → List (List Char)
  | [] => [[]]
  | c :: cs =>
    if c == '.' then [] :: splitOnDot cs
    else
      match splitOnDot cs with
      | [] => [[c]]
      | p :: ps => (c :: p) :: ps

/-- isValidJWTFormat from src/utils/validators.ts:
token.split('.') has exactly three parts, all non-empty. -/
def isValidJWTFormat (token : String) : Bool :=
  let parts := splitOnDot token.toList
  parts.length == 3 && parts.all (fun p => p.length > 0)

/-- Does the first character list occur at the head of the second. -/
def charsLead : List Char → List Char → Bool
  | [], _ => true
  | _ :: _, [] => false
  | a :: as, b :: bs => a == b && charsLead as bs

/-- Does the first character list occur anywhere in the second. -/
def charsHas (needle : List Char) : List Char → Bool
  | [] => needle.isEmpty
  | c :: cs => charsLead needle (c :: cs) || charsHas needle cs

/-- JavaScript s.includes(sub). -/
def strIncludes (s sub : String) : Bool :=
  charsHas sub.toList s.toList

/-- The error classes the verifier can surface
(src/errors): InvalidTokenError, TokenExpiredError, NetworkError,
each carrying its message string. -/
inductive AuthErr where
  | invalidToken (msg : String)
  | tokenExpired (msg : String)
  | networkError (msg : String)
deriving Repr

/-- The payload object produced by jose.jwtVerify, restricted to the
eight fields the verifier inspects; a field missing from the payload
is JsValue.undef. -/
structure JWTPayload where
  sub : JsValue
  username : JsValue
  profilePicture : JsValue
  iss : JsValue
  exp : JsValue
  iat : JsValue
  aud : JsValue
  scope : JsValue
deriving Repr

/-- DecodedToken (src/types, interface DecodedToken) as constructed by
JwtVerifier.verify; scope is copied from the payload without checking
the element types, so it is a list of raw JsValue. -/
structure DecodedToken where
  sub : String
  username : String
  profilePicture : String
  iss : String
  exp : Int
  iat : Int
  aud : String
  scope : List JsValue
deriving Repr

/-- Outcome of the external jose.importSPKI plus jose.jwtVerify call on
(key, token): success with a payload, or one of the jose error classes
the verifier distinguishes (JWTExpired, JWTClaimValidationFailed with
its message, JWSSignatureVerificationFailed, any other JOSEError). -/
inductive JoseResult where
  | ok (payload : JWTPayload)
  | jwtExpired (msg : String)
  | claimValidationFailed (msg : String)
  | signatureVerificationFailed
  | otherJoseError (msg : String)

/-- The environment verify runs against: the outcome of
publicKeyCache.getPublicKey() (Except.error msg meaning a NetworkError
with that message), and the jose verification outcome as a function of
the key and the token. -/
structure VerifyEnv where
  keyResult : Except String String
  joseVerify : String → String → JoseResult

/-- The disjunction of typeof and Array.isArray tests guarding the
throw of InvalidTokenError('Token payload missing required fields')
in JwtVerifier.verify. Note the scope field is only required to be an
array; its elements are not inspected. -/
def missingRequiredFields (p : JWTPayload) : Bool :=
  !p.sub.isString || !p.username.isString || !p.profilePicture.isString ||
  !p.iss.isString || !p.exp.isNumber || !p.iat.isNumber ||
  !p.aud.isString || !p.scope.isArray

/-- JwtVerifier.verify (src/jwt/verifier.ts). The try block obtains the
key, runs jose, and checks the required fields; the catch block
classifies errors: JWTExpired becomes TokenExpiredError,
JWTClaimValidationFailed is split on whether its message includes
'audience' or 'issuer', signature failure and other JOSEErrors become
InvalidTokenError, the verifier's own InvalidTokenError and
TokenExpiredError are rethrown, and every other error (including a
NetworkError from getPublicKey, which matches none of the instanceof
branches) is wrapped as
InvalidTokenError('Unexpected error during token verification: ' +
String(error)), where String(error) for a NetworkError instance is
'NetworkError: ' followed by its message. -/
def verify (serviceId : String) (env : VerifyEnv) (token : String) :
    Except AuthErr DecodedToken :=
  if token = "" then
    .error (.invalidToken "Token must be a non-empty string")
  else if !isValidJWTFormat token then
    .error (.invalidToken "Invalid JWT format")
  else
    match env.keyResult with
    | .error msg =>
      .error (.invalidToken
        ("Unexpected error during token verification: NetworkError: " ++ msg))
    | .ok key =>
      match env.joseVerify key token with
      | .ok payload =>
        if missingRequiredFields payload then
          .error (.invalidToken "Token payload missing required fields")
        else
          .ok { sub := payload.sub.asString
                username := payload.username.asString
                profilePicture := payload.profilePicture.asString
                iss := payload.iss.asString
                exp := payload.exp.asNumber
                iat := payload.iat.asNumber
                aud := payload.aud.asString
                scope := payload.scope.asList }
      | .jwtExpired _ => .error (.tokenExpired "Token has expired")
      | .claimValidationFailed msg =>
        if strIncludes msg "audience" then
          .error (.invalidToken
            ("Token audience mismatch (expected: " ++ serviceId ++ ")"))
        else if strIncludes msg "issuer" then
          .error (.invalidToken "Token issuer mismatch")
        else
          .error (.invalidToken ("Token claim validation failed: " ++ msg))
      | .signatureVerificationFailed =>
        .error (.invalidToken "Invalid token signature")
      | .otherJoseError msg =>
        .error (.invalidToken ("Token verification failed: " ++ msg))

/-- Outcome presented to one attempt of the fetch loop by the HTTP
transport: either the axios call throws (connection failure, non-2xx,
timeout) with an error message, or a response arrives whose
data.publicKey field is absent (none) or holds a string. -/
inductive HttpAttempt where
  | failure (msg : String)
  | response (publicKey : Option String)

/-- The body of one attempt in PublicKeyCache.fetchPublicKey: a thrown
transport error keeps its message; a response whose publicKey field is
absent or empty (falsy) raises
Error('Invalid response: missing publicKey field'); otherwise the key
is returned. -/
def attemptOutcome : HttpAttempt → Except String String
  | .failure msg => .error msg
  | .response none => .error "Invalid response: missing publicKey field"
  | .response (some k) =>
    if k = "" then .error "Invalid response: missing publicKey field"
    else .ok k

/-- Backoff delay in milliseconds after a failed attempt n:
1000 * 2 ^ (n - 1). -/
def backoffDelay (attempt : Nat) : Nat :=
  1000 * 2 ^ (attempt - 1)

/-- The NetworkError message built after the retry budget is exhausted,
from the last underlying error's message. -/
def netFailMsg (lastMsg : String) : String :=
  "Failed to fetch public key after 3 attempts: " ++ lastMsg

/-- Result of running PublicKeyCache.fetchPublicKey: the returned key
or the NetworkError message, the number of attempts made, and the list
of backoff delays waited between attempts, in order. -/
structure FetchOutcome where
  result : Except String String
  attempts : Nat
  delays : List Nat
deriving Repr

/-- The retry loop of PublicKeyCache.fetchPublicKey, from a given
attempt number with a given remaining attempt budget. On failure with
budget left it waits backoffDelay attempt and retries; on failure of
the last attempt it reports the NetworkError built from that attempt's
message (the loop's lastError). -/
def fetchFrom (env : Nat → HttpAttempt) : Nat → Nat → FetchOutcome
  | _, 0 => { result := .error (netFailMsg ""), attempts := 0, delays := [] }
  | attempt, remaining + 1 =>
    match attemptOutcome (env attempt) with
    | .ok k => { result := .ok k, attempts := 1, delays := [] }
    | .error msg =>
      if remaining = 0 then
        { result := .error (netFailMsg msg), attempts := 1, delays := [] }
      else
        let rest := fetchFrom env (attempt + 1) remaining
        { result := rest.result
          attempts := rest.attempts + 1
          delays := backoffDelay attempt :: rest.delays }

/-- PublicKeyCache.fetchPublicKey: maxRetries = 3, attempts numbered
from 1, driven by the transport oracle env giving each attempt's HTTP
outcome. -/
def fetchPublicKey (env : Nat → HttpAttempt) : FetchOutcome :=
  fetchFrom env 1 3

/-- State of one PublicKeyCache instance together with the event-loop
bookkeeping needed to model its async behavior:
cache is the publicKey field (none = null), pending is the
fetchPromise field holding the id of the stored promise (none = null),
nextId numbers the fetch promises created so far (so it counts fetch
sequences initiated), conts lists the promise ids whose initiator
continuation (the assignment plus finally block in getPublicKey) has
not yet run, waiting maps each caller to the promise id it awaits,
and results records each caller's delivered outcome. -/
structure CacheSys where
  cache : Option String
  pending : Option Nat
  nextId : Nat
  conts : List Nat
  waiting : List (Nat × Nat)
  results : List (Nat × Except String String)
deriving Repr

/-- A fresh PublicKeyCache: no cached key, no pending fetch. -/
def CacheSys.empty : CacheSys :=
  { cache := none, pending := none, nextId := 0
    conts := [], waiting := [], results := [] }

/-- JavaScript truthiness of the publicKey field: a non-null, non-empty
string. -/
def truthy : Option String → Bool
  | some k => !(k == "")
  | none => false

/-- The synchronous prologue of getPublicKey run by caller c, atomic on
the event loop: cached key present → resolve immediately with it;
fetch in progress → await that promise; otherwise create a fetch
promise, store it in the fetchPromise field, and await it. -/
def getPrologue (c : Nat) (s : CacheSys) : CacheSys :=
  if truthy s.cache then
    { s with results := (c, Except.ok (s.cache.getD "")) :: s.results }
  else
    match s.pending with
    | some pid => { s with waiting := (c, pid) :: s.waiting }
    | none =>
      { s with pending := some s.nextId
               conts := s.nextId :: s.conts
               waiting := (c, s.nextId) :: s.waiting
               nextId := s.nextId + 1 }

/-- Settlement of fetch promise pid with outcome out: runs the
initiator continuation atomically (on success the key is assigned to
the publicKey field; in either case the finally block unconditionally
nulls the fetchPromise field, even if it meanwhile holds a different
promise), and delivers out to every caller awaiting pid. A promise
settles once: the step applies only while pid is in conts. -/
def settleStep (pid : Nat) (out : Except String String) (s : CacheSys) : CacheSys :=
  if s.conts.contains pid then
    { cache := match out with | .ok k => some k | .error _ => s.cache
      pending := none
      nextId := s.nextId
      conts := s.conts.filter (fun q => !(q == pid))
      waiting := s.waiting.filter (fun w => !(w.2 == pid))
      results := (s.waiting.filter (fun w => w.2 == pid)).map
                   (fun w => (w.1, out)) ++ s.results }
  else s

/-- Events the scheduler can interleave: caller c invokes
getPublicKey, caller c invokes refreshPublicKey (which nulls the
publicKey and fetchPromise fields and then runs the getPublicKey
prologue), or the fetch promise pid settles with the outcome of the
retry loop run against transport oracle env. -/
inductive Ev where
  | call (c : Nat)
  | refresh (c : Nat)
  | settle (pid : Nat) (env : Nat → HttpAttempt)

/-- One atomic event-loop step. -/
def step (s : CacheSys) : Ev → CacheSys
  | .call c => getPrologue c s
  | .refresh c => getPrologue c { s with cache := none, pending := none }
  | .settle pid env => settleStep pid (fetchPublicKey env).result s

/-- Run a list of events from a state. -/
def runFrom (s : CacheSys) (es : List Ev) : CacheSys :=
  es.foldl step s

/-- Run a list of events from a fresh cache. -/
def run (es : List Ev) : CacheSys :=
  runFrom CacheSys.empty es

/-- The outcome delivered to caller c, most recent first. -/
def lookupResult (c : Nat) (s : CacheSys) : Option (Except String String) :=
  s.results.lookup c

/-! Evaluation lemmas for the retry loop. -/

theorem fetch_eval_ok1 (env : Nat → HttpAttempt) (k : String)
    (h1 : attemptOutcome (env 1) = .ok k) :
    fetchPublicKey env = { result := .ok k, attempts := 1, delays := [] } := by
  simp [fetchPublicKey, fetchFrom, h1]

theorem fetch_eval_ok2 (env : Nat → HttpAttempt) (m1 k : String)
    (h1 : attemptOutcome (env 1) = .error m1)
    (h2 : attemptOutcome (env 2) = .ok k) :
    fetchPublicKey env = { result := .ok k, attempts := 2, delays := [1000] } := by
  simp [fetchPublicKey, fetchFrom, h1, h2, backoffDelay]

theorem fetch_eval_ok3 (env : Nat → HttpAttempt) (m1 m2 k : String)
    (h1 : attemptOutcome (env 1) = .error m1)
    (h2 : attemptOutcome (env 2) = .error m2)
    (h3 : attemptOutcome (env 3) = .ok k) :
    fetchPublicKey env = { result := .ok k, attempts := 3, delays := [1000, 2000] } := by
  simp [fetchPublicKey, fetchFrom, h1, h2, h3, backoffDelay]

theorem fetch_eval_fail (env : Nat → HttpAttempt) (m1 m2 m3 : String)
    (h1 : attemptOutcome (env 1) = .error m1)
    (h2 : attemptOutcome (env 2) = .error m2)
    (h3 : attemptOutcome (env 3) = .error m3) :
    fetchPublicKey env
      = { result := .error (netFailMsg m3), attempts := 3, delays := [1000, 2000] } := by
  simp [fetchPublicKey, fetchFrom, h1, h2, h3, backoffDelay]

theorem attemptOutcome_ok_ne_empty (a : HttpAttempt) (k : String)
    (h : attemptOutcome a = .ok k) : k ≠ "" := by
  cases a with
  | failure m => simp [attemptOutcome] at h
  | response pk =>
    cases pk with
    | none => simp [attemptOutcome] at h
    | some k0 =>
      by_cases hk0 : k0 = ""
      · simp [attemptOutcome, hk0] at h
      · simp [attemptOutcome, hk0] at h
        subst h; exact hk0

theorem fetchFrom_ok_attempt (env : Nat → HttpAttempt) :
    ∀ (remaining attempt : Nat) (k : String),
      (fetchFrom env attempt remaining).result = .ok k →
      ∃ n, attemptOutcome (env n) = .ok k := by
  intro remaining
  induction remaining with
  | zero => intro attempt k h; simp [fetchFrom] at h
  | succ r ih =>
    intro attempt k h
    rcases ha : attemptOutcome (env attempt) with m | k0
    · by_cases hr : r = 0
      · subst hr; simp [fetchFrom, ha] at h
      · simp [fetchFrom, ha, hr] at h
        exact ih (attempt + 1) k h
    · simp [fetchFrom, ha] at h
      exact ⟨attempt, by rw [ha, h]⟩

/-- A key returned by the fetch loop is never empty: it passed the
non-empty publicKey check of some attempt. -/
theorem fetch_ok_ne_empty (env : Nat → HttpAttempt) (k : String)
    (h : (fetchPublicKey env).result = .ok k) : k ≠ "" := by
  obtain ⟨n, hn⟩ := fetchFrom_ok_attempt env 3 1 k h
  exact attemptOutcome_ok_ne_empty (env n) k hn

/-- C6: the internal key fetch makes between 1 and 3 attempts; the
list of waits performed is exactly one delay of 1000 * 2 ^ (n - 1)
milliseconds after each failed attempt n with n < 3 (so the i-th delay,
counting from 0, is 1000 * 2 ^ i, and there is one fewer delay than
attempts); a response whose key-material field is absent or empty is an
attempt failure; and when all 3 attempts fail the loop reports the
NetworkFailure message built from the last underlying error's
description. -/
theorem fetch_retry_policy (env : Nat → HttpAttempt) :
    (1 ≤ (fetchPublicKey env).attempts ∧ (fetchPublicKey env).attempts ≤ 3) ∧
    (fetchPublicKey env).delays
      = (List.range ((fetchPublicKey env).attempts - 1)).map (fun i => 1000 * 2 ^ i) ∧
    ((fetchPublicKey env).delays
      = (List.range ((fetchPublicKey env).attempts - 1)).map (fun i => backoffDelay (i + 1))) ∧
    attemptOutcome (HttpAttempt.response none)
      = .error "Invalid response: missing publicKey field" ∧
    attemptOutcome (HttpAttempt.response (some ""))
      = .error "Invalid response: missing publicKey field" ∧
    (∀ m1 m2 m3 : String,
      attemptOutcome (env 1) = .error m1 →
      attemptOutcome (env 2) = .error m2 →
      attemptOutcome (env 3) = .error m3 →
      (fetchPublicKey env).result = .error (netFailMsg m3)) := by
  have hmain :
      (1 ≤ (fetchPublicKey env).attempts ∧ (fetchPublicKey env).attempts ≤ 3) ∧
      (fetchPublicKey env).delays
        = (List.range ((fetchPublicKey env).attempts - 1)).map (fun i => 1000 * 2 ^ i) ∧
      ((fetchPublicKey env).delays
        = (List.range ((fetchPublicKey env).attempts - 1)).map (fun i => backoffDelay (i + 1))) := by
    rcases h1 : attemptOutcome (env 1) with m1 | k1
    · rcases h2 : attemptOutcome (env 2) with m2 | k2
      · rcases h3 : attemptOutcome (env 3) with m3 | k3
        · rw [fetch_eval_fail env m1 m2 m3 h1 h2 h3]
          refine ⟨⟨by simp, by simp⟩, ?_, ?_⟩ <;> simp [backoffDelay] <;> decide
        · rw [fetch_eval_ok3 env m1 m2 k3 h1 h2 h3]
          refine ⟨⟨by simp, by simp⟩, ?_, ?_⟩ <;> simp [backoffDelay] <;> decide
      · rw [fetch_eval_ok2 env m1 k2 h1 h2]
        refine ⟨⟨by simp, by simp⟩, ?_, ?_⟩ <;> simp [backoffDelay] <;> decide
    · rw [fetch_eval_ok1 env k1 h1]
      refine ⟨⟨by simp, by simp⟩, ?_, ?_⟩ <;> simp [backoffDelay]
  refine ⟨hmain.1, hmain.2.1, hmain.2.2, rfl, rfl, ?_⟩
  intro m1 m2 m3 h1 h2 h3
  rw [fetch_eval_fail env m1 m2 m3 h1 h2 h3]

/-- C6 witness: a transport that fails all three attempts exhausts the
budget and surfaces the NetworkFailure message built from the third
attempt's error. -/
theorem fetch_retry_policy_witness :
    attemptOutcome (HttpAttempt.failure "timeout 3") = .error "timeout 3" ∧
    (fetchPublicKey (fun n => HttpAttempt.failure ("timeout " ++ toString n))).result
      = .error (netFailMsg "timeout 3") :=
  ⟨rfl, (fetch_retry_policy (fun n => HttpAttempt.failure ("timeout " ++ toString n))).2.2.2.2.2
    "timeout 1" "timeout 2" "timeout 3" rfl rfl rfl⟩

/-- Invariant holding while the first and only fetch (promise 0) is in
flight on a fresh cache: no cached key, the pending marker holds
promise 0, exactly one fetch has been initiated, promise 0 is
unsettled, nothing has been delivered, and every waiting caller awaits
promise 0. -/
def Pmid (s : CacheSys) : Prop :=
  s.cache = none ∧ s.pending = some 0 ∧ s.nextId = 1 ∧ s.conts = [0] ∧
  s.results = [] ∧ ∀ w ∈ s.waiting, w.2 = 0

theorem call_from_empty (c : Nat) :
    step CacheSys.empty (Ev.call c)
      = { cache := none, pending := some 0, nextId := 1, conts := [0]
          waiting := [(c, 0)], results := [] } := rfl

theorem Pmid_first (c : Nat) :
    Pmid (step CacheSys.empty (Ev.call c)) ∧
    (c, 0) ∈ (step CacheSys.empty (Ev.call c)).waiting := by
  rw [call_from_empty]
  refine ⟨⟨rfl, rfl, rfl, rfl, rfl, ?_⟩, ?_⟩ <;> simp

theorem call_preserves_Pmid (s : CacheSys) (c : Nat) (h : Pmid s) :
    Pmid (step s (Ev.call c)) ∧
    (step s (Ev.call c)).waiting = (c, 0) :: s.waiting := by
  obtain ⟨hc, hp, hn, hco, hr, hw⟩ := h
  have hstep : step s (Ev.call c) = { s with waiting := (c, 0) :: s.waiting } := by
    simp [step, getPrologue, hc, hp, truthy]
  rw [hstep]
  refine ⟨⟨hc, hp, hn, hco, hr, ?_⟩, rfl⟩
  intro w hwmem
  rcases List.mem_cons.mp hwmem with h1 | h2
  · rw [h1]
  · exact hw w h2

theorem calls_keep_Pmid (cs : List Nat) :
    ∀ s : CacheSys, Pmid s →
      Pmid (runFrom s (cs.map Ev.call)) ∧
      (∀ w ∈ s.waiting, w ∈ (runFrom s (cs.map Ev.call)).waiting) ∧
      (∀ c ∈ cs, (c, 0) ∈ (runFrom s (cs.map Ev.call)).waiting) := by
  induction cs with
  | nil =>
    intro s hs
    refine ⟨hs, ?_, ?_⟩ <;> simp [runFrom]
  | cons c cs ih =>
    intro s hs
    obtain ⟨h1, h2⟩ := call_preserves_Pmid s c hs
    have hrun : runFrom s ((c :: cs).map Ev.call)
        = runFrom (step s (Ev.call c)) (cs.map Ev.call) := rfl
    obtain ⟨ihP, ihMono, ihMem⟩ := ih (step s (Ev.call c)) h1
    refine ⟨hrun ▸ ihP, ?_, ?_⟩
    · intro w hwm
      rw [hrun]
      exact ihMono w (by rw [h2]; exact List.mem_cons_of_mem _ hwm)
    · intro c' hc'
      rw [hrun]
      rcases List.mem_cons.mp hc' with h | h
      · subst h
        exact ihMono (c', 0) (by rw [h2]; exact List.mem_cons_self _ _)
      · exact ihMem c' h

theorem lookup_const (c : Nat) (v : Except String String)
    (l : List (Nat × Except String String))
    (hall : ∀ p ∈ l, p.2 = v) (hmem : ∃ p ∈ l, p.1 = c) :
    l.lookup c = some v := by
  induction l with
  | nil => simp at hmem
  | cons p l ih =>
    by_cases hcp : c == p.1
    · have : p.2 = v := hall p (List.mem_cons_self _ _)
      cases p
      simp_all [List.lookup]
    · cases p with
    | mk p1 p2 =>
      simp only [List.lookup, hcp]
      obtain ⟨q, hq, hq1⟩ := hmem
      rcases List.mem_cons.mp hq with h | h
      · exfalso
        apply hcp
        have hp1 : p1 = c := by rw [h] at hq1; exact hq1
        simp [hp1]
      · exact ih (fun r hr => hall r (List.mem_cons_of_mem _ hr)) ⟨q, h, hq1⟩

theorem settle_under_Pmid (s : CacheSys) (h : Pmid s) (out : Except String String) :
    settleStep 0 out s =
      { cache := match out with | .ok k => some k | .error _ => none
        pending := none
        nextId := 1
        conts := []
        waiting := []
        results := s.waiting.map (fun w => (w.1, out)) } := by
  obtain ⟨hc, hp, hn, hco, hr, hw⟩ := h
  have hcontains : s.conts.contains 0 = true := by rw [hco]; simp
  have hfilter1 : s.waiting.filter (fun w => w.2 == 0) = s.waiting := by
    apply List.filter_eq_self.mpr
    intro w hwm
    simp [hw w hwm]
  have hfilter2 : s.waiting.filter (fun w => !(w.2 == 0)) = [] := by
    apply List.filter_eq_nil_iff.mpr
    intro w hwm
    simp [hw w hwm]
  rcases out with m | k <;>
    simp [settleStep, hcontains, hco, hn, hfilter1, hfilter2, hr, hc]

theorem run_calls_settle (cs : List Nat) (hne : cs ≠ []) (out : Except String String) :
    (settleStep 0 out (run (cs.map Ev.call))).pending = none ∧
    (settleStep 0 out (run (cs.map Ev.call))).cache
      = (match out with | .ok k => some k | .error _ => none) ∧
    (run (cs.map Ev.call)).nextId = 1 ∧
    (∀ c ∈ cs, lookupResult c (settleStep 0 out (run (cs.map Ev.call))) = some out) := by
  obtain ⟨c0, cs', rfl⟩ := List.exists_cons_of_ne_nil hne
  have h1 := Pmid_first c0
  have h2 := calls_keep_Pmid cs' (step CacheSys.empty (Ev.call c0)) h1.1
  have hrun : run ((c0 :: cs').map Ev.call)
      = runFrom (step CacheSys.empty (Ev.call c0)) (cs'.map Ev.call) := rfl
  have hP : Pmid (run ((c0 :: cs').map Ev.call)) := by rw [hrun]; exact h2.1
  have hmem : ∀ c ∈ c0 :: cs', (c, 0) ∈ (run ((c0 :: cs').map Ev.call)).waiting := by
    intro c hcm
    rw [hrun]
    rcases List.mem_cons.mp hcm with h | h
    · subst h; exact h2.2.1 (c, 0) h1.2
    · exact h2.2.2 c h
  rw [settle_under_Pmid _ hP out]
  refine ⟨rfl, rfl, hP.2.2.1, ?_⟩
  intro c hcm
  apply lookup_const
  · intro p hp
    obtain ⟨w, _, hw⟩ := List.mem_map.mp hp
    rw [← hw]
  · refine ⟨(c, out), ?_, rfl⟩
    exact List.mem_map.mpr ⟨(c, 0), hmem c hcm, rfl⟩

/-- C3: N concurrent getPublicKey() calls on a fresh cache (issued
before any fetch resolves) initiate exactly one fetch sequence
(nextId, the number of fetch promises ever created, is 1), and when
that single fetch settles every one of the N callers is delivered its
outcome, the same key on success or the same failure. -/
theorem single_flight (cs : List Nat) (h : cs ≠ []) (env : Nat → HttpAttempt) :
    (run (cs.map Ev.call)).nextId = 1 ∧
    ∀ c ∈ cs,
      lookupResult c (run (cs.map Ev.call ++ [Ev.settle 0 env]))
        = some (fetchPublicKey env).result := by
  have hmain := run_calls_settle cs h (fetchPublicKey env).result
  have hrw : run (cs.map Ev.call ++ [Ev.settle 0 env])
      = settleStep 0 (fetchPublicKey env).result (run (cs.map Ev.call)) := by
    rw [run, runFrom, List.foldl_append]
    rfl
  refine ⟨hmain.2.2.1, ?_⟩
  intro c hc
  rw [hrw]
  exact hmain.2.2.2 c hc

/-- C3 witness: two concurrent callers, one fetch, both see the key. -/
theorem single_flight_witness :
    (run ([5, 7].map Ev.call)).nextId = 1 ∧
    lookupResult 7
      (run ([5, 7].map Ev.call
        ++ [Ev.settle 0 (fun _ => HttpAttempt.response (some "PEM-KEY-1"))]))
      = some (fetchPublicKey (fun _ => HttpAttempt.response (some "PEM-KEY-1"))).result :=
  ⟨(single_flight [5, 7] (by simp) (fun _ => HttpAttempt.response (some "PEM-KEY-1"))).1,
   (single_flight [5, 7] (by simp) (fun _ => HttpAttempt.response (some "PEM-KEY-1"))).2
     7 (by simp)⟩

/-- C7: when the single in-flight fetch fails after its retries are
exhausted, the pending-fetch marker is cleared, the cache stays empty,
and the NetworkFailure outcome is delivered to every caller that
joined that fetch. -/
theorem fetch_failure_clears (cs : List Nat) (h : cs ≠ [])
    (env : Nat → HttpAttempt) (m : String)
    (hm : (fetchPublicKey env).result = .error m) :
    (run (cs.map Ev.call ++ [Ev.settle 0 env])).pending = none ∧
    (run (cs.map Ev.call ++ [Ev.settle 0 env])).cache = none ∧
    ∀ c ∈ cs,
      lookupResult c (run (cs.map Ev.call ++ [Ev.settle 0 env]))
        = some (Except.error m) := by
  have hmain := run_calls_settle cs h (Except.error m)
  have hrw : run (cs.map Ev.call ++ [Ev.settle 0 env])
      = settleStep 0 (Except.error m) (run (cs.map Ev.call)) := by
    rw [run, runFrom, List.foldl_append]
    show step (run (cs.map Ev.call)) (Ev.settle 0 env)
      = settleStep 0 (Except.error m) (run (cs.map Ev.call))
    rw [step, hm]
  refine ⟨?_, ?_, ?_⟩
  · rw [hrw]; exact hmain.1
  · rw [hrw]; exact hmain.2.1
  · intro c hc
    rw [hrw]
    exact hmain.2.2.2 c hc

/-- C7 witness: one caller, a transport failing every attempt; the
NetworkFailure message reaches the caller, nothing is cached and the
pending marker is clear. -/
theorem fetch_failure_clears_witness :
    (run ([3].map Ev.call
      ++ [Ev.settle 0 (fun _ => HttpAttempt.failure "boom")])).pending = none ∧
    (run ([3].map Ev.call
      ++ [Ev.settle 0 (fun _ => HttpAttempt.failure "boom")])).cache = none ∧
    lookupResult 3
      (run ([3].map Ev.call
        ++ [Ev.settle 0 (fun _ => HttpAttempt.failure "boom")]))
      = some (Except.error (netFailMsg "boom")) := by
  have h := fetch_failure_clears [3] (by simp) (fun _ => HttpAttempt.failure "boom")
    (netFailMsg "boom") rfl
  exact ⟨h.1, h.2.1, h.2.2 3 (by simp)⟩

theorem call_on_cached (s : CacheSys) (k : String) (hk : k ≠ "")
    (hc : s.cache = some k) (c : Nat) :
    step s (Ev.call c)
      = { s with results := (c, Except.ok k) :: s.results } := by
  have ht : truthy (some k) = true := by simp [truthy, hk]
  simp [step, getPrologue, hc, ht]

theorem calls_cached (k : String) (hk : k ≠ "") :
    ∀ (cs : List Nat) (s : CacheSys), s.cache = some k →
      (runFrom s (cs.map Ev.call)).cache = some k ∧
      (runFrom s (cs.map Ev.call)).nextId = s.nextId ∧
      ∀ c : Nat,
        (lookupResult c s = some (Except.ok k) ∨ c ∈ cs) →
        lookupResult c (runFrom s (cs.map Ev.call)) = some (Except.ok k) := by
  intro cs
  induction cs with
  | nil =>
    intro s hc
    refine ⟨hc, rfl, ?_⟩
    intro c hor
    rcases hor with h | h
    · exact h
    · simp at h
  | cons c0 cs ih =>
    intro s hc
    have hstep := call_on_cached s k hk hc c0
    have hrun : runFrom s ((c0 :: cs).map Ev.call)
        = runFrom (step s (Ev.call c0)) (cs.map Ev.call) := rfl
    have hc' : (step s (Ev.call c0)).cache = some k := by rw [hstep]; exact hc
    obtain ⟨ih1, ih2, ih3⟩ := ih (step s (Ev.call c0)) hc'
    refine ⟨by rw [hrun]; exact ih1, ?_, ?_⟩
    · rw [hrun, ih2, hstep]
    · intro c hor
      rw [hrun]
      apply ih3
      rcases hor with h | h
      · left
        rw [hstep]
        by_cases hcc : c == c0
        · simp [lookupResult, List.lookup, hcc]
        · simpa [lookupResult, List.lookup, hcc] using h
      · rcases List.mem_cons.mp h with h0 | h0
        · left
          subst h0
          simp [hstep, lookupResult, List.lookup]
        · right; exact h0

/-- C8: once a getPublicKey() call has succeeded with key k (here:
caller a's fetch resolved with k, so the call returned k and cached
it), every subsequent getPublicKey() call before any refreshPublicKey()
is answered with the identical key material and creates no new fetch
promise (nextId is unchanged). -/
theorem cache_coherence (a : Nat) (env : Nat → HttpAttempt) (k : String)
    (henv : (fetchPublicKey env).result = .ok k) (cs : List Nat) :
    lookupResult a (run [Ev.call a, Ev.settle 0 env]) = some (Except.ok k) ∧
    (runFrom (run [Ev.call a, Ev.settle 0 env]) (cs.map Ev.call)).nextId
      = (run [Ev.call a, Ev.settle 0 env]).nextId ∧
    ∀ c ∈ cs,
      lookupResult c (runFrom (run [Ev.call a, Ev.settle 0 env]) (cs.map Ev.call))
        = some (Except.ok k) := by
  have hk : k ≠ "" := fetch_ok_ne_empty env k henv
  have hs1 : run [Ev.call a, Ev.settle 0 env]
      = { cache := some k, pending := none, nextId := 1, conts := []
          waiting := [], results := [(a, Except.ok k)] } := by
    have : run [Ev.call a, Ev.settle 0 env]
        = settleStep 0 (fetchPublicKey env).result (step CacheSys.empty (Ev.call a)) := rfl
    rw [this, henv, call_from_empty]
    simp [settleStep]
  obtain ⟨h1, h2, h3⟩ := calls_cached k hk cs (run [Ev.call a, Ev.settle 0 env])
    (by rw [hs1])
  refine ⟨by rw [hs1]; simp [lookupResult, List.lookup], h2, ?_⟩
  intro c hc
  exact h3 c (Or.inr hc)

/-- C8 witness: after caller 0 fetched the key, callers 1 and 2 are
served from cache with the same key and no new fetch is created. -/
theorem cache_coherence_witness :
    lookupResult 0
      (run [Ev.call 0, Ev.settle 0 (fun _ => HttpAttempt.response (some "PEM-B"))])
      = some (Except.ok "PEM-B") ∧
    (runFrom
      (run [Ev.call 0, Ev.settle 0 (fun _ => HttpAttempt.response (some "PEM-B"))])
      ([1, 2].map Ev.call)).nextId
      = (run [Ev.call 0, Ev.settle 0 (fun _ => HttpAttempt.response (some "PEM-B"))]).nextId ∧
    lookupResult 2
      (runFrom
        (run [Ev.call 0, Ev.settle 0 (fun _ => HttpAttempt.response (some "PEM-B"))])
        ([1, 2].map Ev.call))
      = some (Except.ok "PEM-B") := by
  have h := cache_coherence 0 (fun _ => HttpAttempt.response (some "PEM-B")) "PEM-B" rfl [1, 2]
  exact ⟨h.1, h.2.1, h.2.2 2 (by simp)⟩

/-- A transport whose first attempt immediately returns the key
STALE-KEY; used to drive the fetch that is already in flight when a
refresh arrives. -/
def staleEnv : Nat → HttpAttempt :=
  fun _ => HttpAttempt.response (some "STALE-KEY")

/-- C2 counterexample: caller 0 starts a fetch (promise 0); caller 1
invokes refreshPublicKey() while that fetch is still in flight, which
clears the fields and starts a new fetch (promise 1); the stale
promise 0 then resolves with STALE-KEY and its initiator continuation
stores it in the cache; a later getPublicKey() by caller 2 is served
STALE-KEY from the cache without a new fetch (nextId stays 2). This
refutes the claim that the stale fetch's result is never stored in the
cache after a refresh. -/
theorem stale_fetch_repopulates_cache_cex :
    lookupResult 2 (run [Ev.call 0, Ev.refresh 1, Ev.settle 0 staleEnv, Ev.call 2])
      = some (Except.ok "STALE-KEY") ∧
    (run [Ev.call 0, Ev.refresh 1, Ev.settle 0 staleEnv, Ev.call 2]).cache
      = some "STALE-KEY" ∧
    (run [Ev.call 0, Ev.refresh 1, Ev.settle 0 staleEnv, Ev.call 2]).nextId = 2 :=
  ⟨rfl, rfl, rfl⟩

/-- C2 (amended): refreshPublicKey() clears the cached key and the
pending-fetch marker and starts a new fetch, but establishes no
generation guard: from any state in which a fetch promise p is in
flight (stored in the pending marker and not yet settled), if a
refresh occurs and afterwards the stale promise p resolves
successfully with key k, then k is stored in the cache, and a
subsequent getPublicKey() returns the stale key k from the cache. -/
theorem stale_fetch_repopulates (s : CacheSys) (p r c : Nat)
    (env : Nat → HttpAttempt) (k : String)
    (hpend : s.pending = some p)
    (hcont : s.conts.contains p = true)
    (henv : (fetchPublicKey env).result = .ok k) :
    (runFrom s [Ev.refresh r, Ev.settle p env, Ev.call c]).cache = some k ∧
    lookupResult c (runFrom s [Ev.refresh r, Ev.settle p env, Ev.call c])
      = some (Except.ok k) := by
  have hk : k ≠ "" := fetch_ok_ne_empty env k henv
  have hrun : runFrom s [Ev.refresh r, Ev.settle p env, Ev.call c]
      = step (step (step s (Ev.refresh r)) (Ev.settle p env)) (Ev.call c) := rfl
  have hs1 : step s (Ev.refresh r)
      = { cache := none, pending := some s.nextId, nextId := s.nextId + 1
          conts := s.nextId :: s.conts, waiting := (r, s.nextId) :: s.waiting
          results := s.results } := by
    simp [step, getPrologue, truthy]
  have hmem : p ∈ s.conts := by
    simp [List.contains] at hcont
    exact hcont
  have hs2 : step (step s (Ev.refresh r)) (Ev.settle p env)
      = settleStep p (Except.ok k) (step s (Ev.refresh r)) := by
    show settleStep p (fetchPublicKey env).result (step s (Ev.refresh r))
      = settleStep p (Except.ok k) (step s (Ev.refresh r))
    rw [henv]
  have hor : p = s.nextId ∨ p ∈ s.conts := Or.inr hmem
  have hcache2 : (step (step s (Ev.refresh r)) (Ev.settle p env)).cache = some k := by
    rw [hs2, hs1]
    simp [settleStep, hor]
  have hs3 := call_on_cached (step (step s (Ev.refresh r)) (Ev.settle p env)) k hk hcache2 c
  rw [hrun, hs3]
  refine ⟨hcache2, ?_⟩
  simp [lookupResult, List.lookup]

/-- C2 amended-theorem witness: the concrete interleaving of the
counterexample, reached through the general theorem. -/
theorem stale_fetch_repopulates_witness :
    (runFrom (run [Ev.call 0]) [Ev.refresh 1, Ev.settle 0 staleEnv, Ev.call 2]).cache
      = some "STALE-KEY" ∧
    lookupResult 2
      (runFrom (run [Ev.call 0]) [Ev.refresh 1, Ev.settle 0 staleEnv, Ev.call 2])
      = some (Except.ok "STALE-KEY") :=
  stale_fetch_repopulates (run [Ev.call 0]) 0 1 2 staleEnv "STALE-KEY" rfl rfl rfl

/-- States in which every cached key and every successfully delivered
key is a non-empty string. -/
def GoodState (s : CacheSys) : Prop :=
  (∀ k : String, s.cache = some k → k ≠ "") ∧
  (∀ (c : Nat) (k : String), (c, Except.ok k) ∈ s.results → k ≠ "")

theorem getPrologue_truthy (c : Nat) (s : CacheSys) (k0 : String)
    (hsc : s.cache = some k0) (hk0 : k0 ≠ "") :
    getPrologue c s = { s with results := (c, Except.ok k0) :: s.results } := by
  unfold getPrologue
  rw [hsc]
  simp [truthy, hk0]

theorem getPrologue_not_truthy (c : Nat) (s : CacheSys)
    (ht : truthy s.cache = false) :
    (getPrologue c s).cache = s.cache ∧ (getPrologue c s).results = s.results := by
  unfold getPrologue
  rw [ht]
  cases hpd : s.pending <;> simp

theorem getPrologue_good (c : Nat) (s : CacheSys) (h : GoodState s) :
    GoodState (getPrologue c s) := by
  obtain ⟨hcache, hres⟩ := h
  by_cases ht : truthy s.cache = true
  · rcases hsc : s.cache with _ | k0
    · rw [hsc] at ht; simp [truthy] at ht
    · have hk0 : k0 ≠ "" := by
        rw [hsc] at ht
        simpa [truthy] using ht
      rw [getPrologue_truthy c s k0 hsc hk0]
      constructor
      · exact hcache
      · intro c' k hk
        rcases List.mem_cons.mp hk with h1 | h1
        · have hkk0 : k = k0 := by
            injection h1 with h1a h1b
            injection h1b with h1c
          rw [hkk0]
          exact hk0
        · exact hres c' k h1
  · have ht' : truthy s.cache = false := by
      revert ht
      cases truthy s.cache <;> simp
    obtain ⟨h1, h2⟩ := getPrologue_not_truthy c s ht'
    exact ⟨fun k hk => hcache k (h1 ▸ hk), fun c' k hk => hres c' k (h2 ▸ hk)⟩

theorem settleStep_eq_pos (pid : Nat) (out : Except String String) (s : CacheSys)
    (hc : s.conts.contains pid = true) :
    settleStep pid out s
      = { cache := match out with | .ok k => some k | .error _ => s.cache
          pending := none
          nextId := s.nextId
          conts := s.conts.filter (fun q => !(q == pid))
          waiting := s.waiting.filter (fun w => !(w.2 == pid))
          results := (s.waiting.filter (fun w => w.2 == pid)).map
                       (fun w => (w.1, out)) ++ s.results } := by
  unfold settleStep
  rw [hc]
  simp

theorem settleStep_eq_neg (pid : Nat) (out : Except String String) (s : CacheSys)
    (hc : s.conts.contains pid = false) :
    settleStep pid out s = s := by
  unfold settleStep
  rw [hc]
  simp

theorem settleStep_good (pid : Nat) (out : Except String String) (s : CacheSys)
    (h : GoodState s) (hout : ∀ k : String, out = Except.ok k → k ≠ "") :
    GoodState (settleStep pid out s) := by
  obtain ⟨hcache, hres⟩ := h
  by_cases hc : s.conts.contains pid = true
  · rw [settleStep_eq_pos pid out s hc]
    constructor
    · intro k hk
      rcases hout2 : out with m | k0
      · rw [hout2] at hk
        exact hcache k hk
      · rw [hout2] at hk
        simp at hk
        rw [← hk]
        exact hout k0 hout2
    · intro c k hk
      rcases List.mem_append.mp hk with h1 | h1
      · obtain ⟨w, _, hw⟩ := List.mem_map.mp h1
        have hko : out = Except.ok k := by
          simpa using congrArg Prod.snd hw
        exact hout k hko
      · exact hres c k h1
  · have hc' : s.conts.contains pid = false := by
      revert hc
      cases s.conts.contains pid <;> simp
    rw [settleStep_eq_neg pid out s hc']
    exact ⟨hcache, hres⟩

theorem step_good (s : CacheSys) (e : Ev) (h : GoodState s) : GoodState (step s e) := by
  cases e with
  | call c => exact getPrologue_good c s h
  | refresh c =>
    apply getPrologue_good
    obtain ⟨_, hres⟩ := h
    exact ⟨fun k hk => by simp at hk, fun c' k hk => hres c' k hk⟩
  | settle pid env =>
    exact settleStep_good pid (fetchPublicKey env).result s h
      (fun k hk => fetch_ok_ne_empty env k hk)

theorem runFrom_good (es : List Ev) :
    ∀ s : CacheSys, GoodState s → GoodState (runFrom s es) := by
  induction es with
  | nil => intro s hs; exact hs
  | cons e es ih =>
    intro s hs
    exact ih (step s e) (step_good s e hs)

/-- C10: in every state reachable by any interleaving of getPublicKey,
refreshPublicKey and fetch settlements on a fresh cache, a key present
in the cache is a non-empty string, and every key successfully
returned to a caller (by getPublicKey or refreshPublicKey) is a
non-empty string: a fetch response with a missing or empty key field
is never cached nor returned, because the retry loop treats it as a
failure. -/
theorem nonempty_key_invariant (es : List Ev) :
    (∀ k : String, (run es).cache = some k → k ≠ "") ∧
    (∀ (c : Nat) (k : String), (c, Except.ok k) ∈ (run es).results → k ≠ "") :=
  runFrom_good es CacheSys.empty
    ⟨fun k hk => by simp [CacheSys.empty] at hk,
     fun c k hk => by simp [CacheSys.empty] at hk⟩

/-- C10 witness: a concrete successful trace; the cached key KEY-C10
is observed non-empty through the invariant. -/
theorem nonempty_key_invariant_witness :
    (run [Ev.call 0, Ev.settle 0 (fun _ => HttpAttempt.response (some "KEY-C10"))]).cache
      = some "KEY-C10" ∧
    ("KEY-C10" : String) ≠ "" :=
  ⟨rfl,
   (nonempty_key_invariant
      [Ev.call 0, Ev.settle 0 (fun _ => HttpAttempt.response (some "KEY-C10"))]).1
     "KEY-C10" rfl⟩

/-- C9: an input that is empty or fails the three-non-empty-segment
structural pre-check is rejected with InvalidToken by a computation
that never consults the key-fetch dependency: the result is the same
for every environment env, in particular for any outcome of
PublicKeyCache.getPublicKey. -/
theorem precheck_rejects_without_fetch (serviceId : String) (env : VerifyEnv)
    (token : String)
    (h : token = "" ∨ isValidJWTFormat token = false) :
    verify serviceId env token
      = .error (.invalidToken
          (if token = "" then "Token must be a non-empty string"
           else "Invalid JWT format")) := by
  rcases h with h | h
  · subst h
    rfl
  · by_cases ht : token = ""
    · subst ht
      rfl
    · simp [verify, ht, h]

/-- C9 witness: verify rejects the two-dot garbage token with
InvalidToken under an environment whose key fetch would succeed,
showing the fetch outcome is irrelevant. -/
theorem precheck_rejects_without_fetch_witness :
    verify "svc-1"
      { keyResult := Except.ok "PEM-X"
        joseVerify := fun _ _ => JoseResult.signatureVerificationFailed } ".."
      = .error (.invalidToken "Invalid JWT format") :=
  precheck_rejects_without_fetch "svc-1"
    { keyResult := Except.ok "PEM-X"
      joseVerify := fun _ _ => JoseResult.signatureVerificationFailed } ".."
    (Or.inr rfl)

/-- The message of the JWTClaimValidationFailed error the jose library
raises for an audience mismatch on an otherwise valid token. It does
not contain the substring audience: the includes checks in the catch
block of JwtVerifier.verify match the messages of the jsonwebtoken
library that the code migrated away from (BROWSER_COMPATIBILITY.md),
not the messages of the jose library it now calls. -/
def joseAudMsg : String := "unexpected \"aud\" claim value"

/-- C5 (behavior at the failing input): a validly signed, non-expired
token whose aud claim differs from the configured service identifier
svc-1 makes jose raise JWTClaimValidationFailed with message
joseAudMsg; that message does not include the substring audience, so
the dedicated audience branch of the catch block never fires and
verify fails with the generic claim-validation InvalidToken message,
which does not name the expected audience svc-1 anywhere. -/
theorem audience_mismatch_message_unnamed :
    verify "svc-1"
      { keyResult := Except.ok "PEM-Y"
        joseVerify := fun _ _ => JoseResult.claimValidationFailed joseAudMsg } "h.p.s"
      = .error (.invalidToken ("Token claim validation failed: " ++ joseAudMsg)) ∧
    strIncludes joseAudMsg "audience" = false ∧
    strIncludes ("Token claim validation failed: " ++ joseAudMsg) "svc-1" = false :=
  ⟨rfl, rfl, rfl⟩

/-- C1 (behavior at the failing input): a token that passes the
structural pre-check, verified while getPublicKey fails with a
NetworkError, is rejected with InvalidToken wrapping the stringified
NetworkError, not with the NetworkError itself: the catch block of
JwtVerifier.verify re-throws only InvalidTokenError and
TokenExpiredError and wraps every other error, NetworkError included,
as InvalidTokenError. -/
theorem network_failure_reclassified :
    verify "svc-1"
      { keyResult := Except.error "connection refused"
        joseVerify := fun _ _ => JoseResult.signatureVerificationFailed } "h.p.s"
      = .error (.invalidToken
          "Unexpected error during token verification: NetworkError: connection refused")
      := rfl

/-- C4 counterexample: a cryptographically verified payload whose
scope field is an array containing the non-string element 42 (all
other fields well-typed) is accepted: verify returns a DecodedToken
instead of failing with InvalidToken, because the code checks only
Array.isArray(payload.scope) and never the element types. -/
theorem scope_elements_not_checked :
    verify "svc-1"
      { keyResult := Except.ok "PEM-Z"
        joseVerify := fun _ _ => JoseResult.ok
          { sub := .str "acct-1", username := .str "alice"
            profilePicture := .str "pic.png", iss := .str "auth"
            exp := .num 2000000000, iat := .num 1000000000
            aud := .str "svc-1", scope := .arr [.num 42] } } "h.p.s"
      = .ok { sub := "acct-1", username := "alice", profilePicture := "pic.png"
              iss := "auth", exp := 2000000000, iat := 1000000000
              aud := "svc-1", scope := [.num 42] } := rfl

theorem missing_eq_not_all (p : JWTPayload) :
    missingRequiredFields p
      = !(p.sub.isString && p.username.isString && p.profilePicture.isString &&
          p.iss.isString && p.exp.isNumber && p.iat.isNumber &&
          p.aud.isString && p.scope.isArray) := by
  unfold missingRequiredFields
  cases p.sub.isString <;> cases p.username.isString <;>
    cases p.profilePicture.isString <;> cases p.iss.isString <;>
    cases p.exp.isNumber <;> cases p.iat.isNumber <;>
    cases p.aud.isString <;> cases p.scope.isArray <;> rfl

/-- C4 (amended): after successful cryptographic verification, verify
returns a DecodedToken exactly when the eight fields sub, username,
profilePicture, iss, aud (strings), exp, iat (numbers) and scope
(an array, with element types not inspected) pass their type checks;
when any of these checks fails, verify fails with InvalidToken. A
scope array containing non-string elements passes the checks. -/
theorem required_fields_checked (serviceId key token : String) (p : JWTPayload)
    (ht : token ≠ "") (hfmt : isValidJWTFormat token = true) :
    ((p.sub.isString && p.username.isString && p.profilePicture.isString &&
      p.iss.isString && p.exp.isNumber && p.iat.isNumber &&
      p.aud.isString && p.scope.isArray) = true →
      verify serviceId
        { keyResult := Except.ok key, joseVerify := fun _ _ => JoseResult.ok p } token
        = .ok { sub := p.sub.asString, username := p.username.asString
                profilePicture := p.profilePicture.asString, iss := p.iss.asString
                exp := p.exp.asNumber, iat := p.iat.asNumber
                aud := p.aud.asString, scope := p.scope.asList }) ∧
    ((p.sub.isString && p.username.isString && p.profilePicture.isString &&
      p.iss.isString && p.exp.isNumber && p.iat.isNumber &&
      p.aud.isString && p.scope.isArray) = false →
      verify serviceId
        { keyResult := Except.ok key, joseVerify := fun _ _ => JoseResult.ok p } token
        = .error (.invalidToken "Token payload missing required fields")) := by
  constructor
  · intro hall
    have hmiss : missingRequiredFields p = false := by
      rw [missing_eq_not_all, hall]
      rfl
    simp [verify, ht, hfmt, hmiss]
  · intro hall
    have hmiss : missingRequiredFields p = true := by
      rw [missing_eq_not_all, hall]
      rfl
    simp [verify, ht, hfmt, hmiss]

/-- C4 amended-theorem witness: a fully well-typed payload is decoded
field by field, and one with scope a plain string is rejected with
InvalidToken. -/
theorem required_fields_checked_witness :
    verify "svc-1"
      { keyResult := Except.ok "PEM-W"
        joseVerify := fun _ _ => JoseResult.ok
          { sub := .str "acct-9", username := .str "bob"
            profilePicture := .str "b.png", iss := .str "auth"
            exp := .num 1700000100, iat := .num 1700000000
            aud := .str "svc-1", scope := .arr [.str "USER"] } } "x.y.z"
      = .ok { sub := "acct-9", username := "bob", profilePicture := "b.png"
              iss := "auth", exp := 1700000100, iat := 1700000000
              aud := "svc-1", scope := [.str "USER"] } ∧
    verify "svc-1"
      { keyResult := Except.ok "PEM-W"
        joseVerify := fun _ _ => JoseResult.ok
          { sub := .str "acct-9", username := .str "bob"
            profilePicture := .str "b.png", iss := .str "auth"
            exp := .num 1700000100, iat := .num 1700000000
            aud := .str "svc-1", scope := .str "USER" } } "x.y.z"
      = .error (.invalidToken "Token payload missing required fields") :=
  ⟨(required_fields_checked "svc-1" "PEM-W" "x.y.z"
      { sub := .str "acct-9", username := .str "bob"
        profilePicture := .str "b.png", iss := .str "auth"
        exp := .num 1700000100, iat := .num 1700000000
        aud := .str "svc-1", scope := .arr [.str "USER"] }
      (by decide) rfl).1 rfl,
   (required_fields_checked "svc-1" "PEM-W" "x.y.z"
      { sub := .str "acct-9", username := .str "bob"
        profilePicture := .str "b.png", iss := .str "auth"
        exp := .num 1700000100, iat := .num 1700000000
        aud := .str "svc-1", scope := .str "USER" }
      (by decide) rfl).2 rfl⟩

end AuthClient
